import Mathlib

/-!
Verification of the notification subsystem of `mattmoor/clair`.

Shallow embedding of:
- `database/pgsql/notification.go` (the pgsql-backed notification store),
- `services/notifications/notifications.go` (the `Service` interface, its
  `Null` no-op implementation, and the driver registry `Register`/`Open`).

Modelling conventions:
- SQL timestamps and Go `time.Time`/`time.Duration` are `Int` (instants on a
  discrete timeline); a NULLable timestamp is `Option Int`.
- `database/sql` row sets are `List NotificationRow` in insertion order.
- `time.Now()` and `uuid.New()` are oracle inputs passed explicitly.
- A `QueryRow` of a SELECT statement is a pure function of the row list; an
  `Exec` of an UPDATE/INSERT returns the new row list.
- The SQL query strings (`insertNotification`, `searchNotificationAvailable`,
  `searchNotification`, `updatedNotificationNotified`, `removeNotification`)
  live in a file that is not part of this source slice; their semantics are
  modelled from the spec where so marked.
-/

namespace Clair

/-- Go `services.Model`: the surrogate-key base struct (`ID int`). -/
structure Model where
  id : Int
deriving DecidableEq, Repr

/-- One row of the `Vulnerability_Notification` table: surrogate id, unique
name (a UUID string), creation timestamp, the two NULLable timestamps
`notified_at` / `deleted_at`, and the two NULLable vulnerability references. -/
structure NotificationRow where
  id : Nat
  name : String
  created : Int
  notified : Option Int
  deleted : Option Int
  oldVulnerabilityId : Option Int
  newVulnerabilityId : Option Int
deriving DecidableEq, Repr

/-- Go `services.VulnerabilityNotification` as returned by the store: scalar
fields plus the two optional vulnerability surrogate references (the Go struct
holds `*services.Vulnerability` pointers whose only populated field is the
embedded `Model`; we keep just that `Model`). A `none` models a nil pointer. -/
structure VulnerabilityNotification where
  id : Nat
  name : String
  created : Int
  notified : Option Int
  deleted : Option Int
  oldVulnerability : Option Model
  newVulnerability : Option Model
deriving DecidableEq, Repr

/-- Errors of `utils/errors` and `services`: `cerrors.ErrNotFound` and
`services.ErrBackendException`. -/
inductive DBError where
  | notFound
  | backendException
deriving DecidableEq, Repr

/-- Modelled from the spec: `handleError` (defined outside this source slice)
maps `sql.ErrNoRows` to `NotFound` and any other persistence failure to
`BackendException` (spec section 7: error taxonomy). In the embedding each
operation applies this mapping directly: a lookup that matches no row yields
`DBError.notFound`, an execution failure yields `DBError.backendException`. -/
def handleErrorNoRows : DBError := DBError.notFound

/-- Embeds `scanNotification` (notification.go): copies the scalar columns
and, only when `hasVulns` is true, turns each valid (non-NULL) vulnerability
id into a bare `services.Vulnerability{Model{id}}` reference; with
`hasVulns = false` both references stay nil. -/
def scanNotification (row : NotificationRow) (hasVulns : Bool) :
    VulnerabilityNotification :=
  { id := row.id
    name := row.name
    created := row.created
    notified := row.notified
    deleted := row.deleted
    oldVulnerability :=
      if hasVulns then row.oldVulnerabilityId.map Model.mk else none
    newVulnerability :=
      if hasVulns then row.newVulnerabilityId.map Model.mk else none }

/-- Modelled from the spec: the availability predicate of
`searchNotificationAvailable` (its SQL text is outside this source slice).
Spec 4.2: a row qualifies iff `Deleted` is absent and `Notified` is absent or
`Notified < now - renotifyInterval`; the Go wrapper passes
`before = now - renotifyInterval` as the comparison bound. -/
def availAt (before : Int) (r : NotificationRow) : Bool :=
  r.deleted.isNone &&
    (match r.notified with
     | none => true
     | some t => decide (t < before))

/-- Embeds `GetAvailableNotification` (notification.go): computes
`before = now - renotifyInterval`, runs the availability SELECT (modelled from
the spec as first-qualifying-row, any deterministic tie-break being
acceptable per spec 4.2), and scans the row with `hasVulns = false`; an empty
result maps through `handleError` to `NotFound`. A SELECT does not change the
table, so the function only reads `db`. -/
def GetAvailableNotification (db : List NotificationRow)
    (now renotifyInterval : Int) : Except DBError VulnerabilityNotification :=
  match db.find? (availAt (now - renotifyInterval)) with
  | some r => Except.ok (scanNotification r false)
  | none => Except.error DBError.notFound

/-- `GetAvailableNotification` as a state transformer, to reason about
interleavings: the Go body runs a single `QueryRow` (a SELECT) and no `Exec`,
so the store state it leaves behind is the state it was given. -/
def GetAvailableNotificationOp (db : List NotificationRow)
    (now renotifyInterval : Int) :
    Except DBError VulnerabilityNotification × List NotificationRow :=
  (GetAvailableNotification db now renotifyInterval, db)

/-- Embeds `GetNotification` (notification.go) with the lookup of
`searchNotification` modelled from the spec: exact match on `Name`, not
filtered by deleted/notified state; the row is scanned with
`hasVulns = true`; no match maps through `handleError` to `NotFound`. -/
def GetNotification (db : List NotificationRow) (nm : String) :
    Except DBError VulnerabilityNotification :=
  match db.find? (fun r => r.name = nm) with
  | some r => Except.ok (scanNotification r true)
  | none => Except.error DBError.notFound

/-- The row transformation of `updatedNotificationNotified`, modelled from the
spec (4.1): `UPDATE ... SET Notified = now WHERE name = nm`. -/
def markNotified (db : List NotificationRow) (nm : String) (t : Int) :
    List NotificationRow :=
  db.map (fun r => if r.name = nm then { r with notified := some t } else r)

/-- Embeds `SetNotificationNotified` (notification.go): executes the update
and returns nil unless the execution itself failed. The Go code discards the
`sql.Result` (`_, err := pgSQL.Exec(...)`): the affected-row count is never
inspected, so an update that matched no row still returns success. -/
def SetNotificationNotified (db : List NotificationRow) (nm : String)
    (now : Int) : Except DBError (List NotificationRow) :=
  Except.ok (markNotified db nm now)

/-- Modelled from the spec: the match predicate of `removeNotification`
(its SQL text is outside this source slice). Spec 4.1: the predicate for
"deletable" excludes already-deleted rows, i.e. the soft delete updates rows
with this name whose `Deleted` is still absent. -/
def deletableBy (nm : String) (r : NotificationRow) : Bool :=
  r.name = nm && r.deleted.isNone

/-- The row transformation of `removeNotification`: sets `Deleted = now` on
every matching live row. -/
def markDeleted (db : List NotificationRow) (nm : String) (t : Int) :
    List NotificationRow :=
  db.map (fun r => if deletableBy nm r then { r with deleted := some t } else r)

/-- Embeds `DeleteNotification` (notification.go): executes the soft-delete
update, reads `RowsAffected()`, and returns `cerrors.ErrNotFound` when
`affected <= 0`; otherwise nil. -/
def DeleteNotification (db : List NotificationRow) (nm : String)
    (now : Int) : Except DBError (List NotificationRow) :=
  let affected := (db.filter (deletableBy nm)).length
  if affected = 0 then Except.error DBError.notFound
  else Except.ok (markDeleted db nm now)

/-- The row built by `CreateNotification` (notification.go): name is the
freshly generated `uuid.New()`, the NULLable vulnerability references are
valid exactly when the passed `services.Model` id differs from 0
(`sql.NullInt64{..., Valid: x.ID != 0}`); per spec 4.1, the insert
(`insertNotification`, outside this source slice) sets `Created = now`,
`Notified = absent`, `Deleted = absent`. -/
def newNotificationRow (uuidNew : String) (now : Int)
    (oldVulnerability newVulnerability : Model) (nextId : Nat) :
    NotificationRow :=
  { id := nextId
    name := uuidNew
    created := now
    notified := none
    deleted := none
    oldVulnerabilityId :=
      if oldVulnerability.id ≠ 0 then some oldVulnerability.id else none
    newVulnerabilityId :=
      if newVulnerability.id ≠ 0 then some newVulnerability.id else none }

/-- A sample stored row carrying both vulnerability references, used to
exercise the availability query on concrete data. -/
def sampleRowW : NotificationRow :=
  { id := 4, name := "w", created := 0, notified := none,
    deleted := none, oldVulnerabilityId := some 5,
    newVulnerabilityId := some 6 }

/-- Embeds `CreateNotification` (notification.go): inserts the new row (the
surrogate id `nextId` is store-assigned); `execOk = false` models a
persistence failure of the `Exec`, mapped through `handleError` to
`BackendException`. No property of the passed vulnerability references is
checked. -/
def CreateNotification (db : List NotificationRow) (uuidNew : String)
    (now : Int) (oldVulnerability newVulnerability : Model) (nextId : Nat)
    (execOk : Bool) : Except DBError (List NotificationRow) :=
  if execOk then
    Except.ok
      (db ++ [newNotificationRow uuidNew now oldVulnerability newVulnerability nextId])
  else Except.error DBError.backendException

end Clair

namespace Clair.Null

/-- Embeds `Null.Ping` (notifications.go): trivially healthy. -/
def Ping : Bool := true

/-- Embeds `Null.Close` (notifications.go): a no-op. -/
def Close : Unit := ()

/-- Embeds `Null.GetAvailableNotification` (notifications.go). -/
def GetAvailableNotification (renotifyInterval : Int) :
    Except DBError VulnerabilityNotification :=
  Except.error DBError.backendException

/-- Embeds `Null.GetNotification` (notifications.go). -/
def GetNotification (nm : String) :
    Except DBError VulnerabilityNotification :=
  Except.error DBError.backendException

/-- Embeds `Null.SetNotificationNotified` (notifications.go). -/
def SetNotificationNotified (nm : String) : Except DBError Unit :=
  Except.error DBError.backendException

/-- Embeds `Null.DeleteNotification` (notifications.go). -/
def DeleteNotification (nm : String) : Except DBError Unit :=
  Except.error DBError.backendException

/-- Embeds `Null.CreateNotification` (notifications.go): reads and discards
the notification, returning nil. -/
def CreateNotification (oldVulnerability newVulnerability : Model) :
    Except DBError Unit :=
  Except.ok ()

end Clair.Null

namespace Clair.Registry

/-- Outcome of `Register` (notifications.go): the Go function either extends
the package-level `notificationDrivers` map or panics. Drivers themselves are
opaque; we identify them by a token. -/
inductive RegisterOutcome where
  | ok (drivers : List (String × Nat))
  | panicked (msg : String)
deriving DecidableEq, Repr

/-- Embeds `Register` (notifications.go): panics on a nil driver, panics on a
duplicate name, otherwise records the driver under the name. The map is a
name-keyed association list. -/
def Register (drivers : List (String × Nat)) (nm : String)
    (driver : Option Nat) : RegisterOutcome :=
  match driver with
  | none => RegisterOutcome.panicked "notifications: could not register nil Driver"
  | some d =>
    if (drivers.lookup nm).isSome then
      RegisterOutcome.panicked
        ("notifications: could not register duplicate Driver: " ++ nm)
    else RegisterOutcome.ok (drivers ++ [(nm, d)])

/-- Embeds `Open` (notifications.go): looks up `cfg.Type` in the driver map
and returns a recoverable error when it is unknown. -/
def Open (drivers : List (String × Nat)) (cfgType : String) :
    Except String Nat :=
  match drivers.lookup cfgType with
  | some d => Except.ok d
  | none =>
    Except.error
      ("notifications: unknown Driver \"" ++ cfgType ++
        "\" (forgotten configuration or import?)")

end Clair.Registry

namespace Clair

/-! ## Helper lemmas -/

/-- The availability predicate, propositionally. -/
theorem availAt_iff (before : Int) (r : NotificationRow) :
    availAt before r = true ↔
      (r.deleted = none ∧
        (r.notified = none ∨ ∃ u, r.notified = some u ∧ u < before)) := by
  unfold availAt
  cases hn : r.notified <;>
    simp [Option.isNone_iff_eq_none, hn]

/-- The deletable predicate, propositionally. -/
theorem deletableBy_iff (nm : String) (r : NotificationRow) :
    deletableBy nm r = true ↔ (r.name = nm ∧ r.deleted = none) := by
  simp [deletableBy, Option.isNone_iff_eq_none]

/-- `scanNotification` keeps the row's name. -/
theorem scanNotification_name (r : NotificationRow) (b : Bool) :
    (scanNotification r b).name = r.name := rfl

/-- Success of the availability query comes from a stored qualifying row. -/
theorem getAvailable_ok_sound (db : List NotificationRow) (now d : Int)
    (v : VulnerabilityNotification)
    (hv : GetAvailableNotification db now d = Except.ok v) :
    ∃ r ∈ db, v = scanNotification r false ∧ r.deleted = none ∧
      (r.notified = none ∨ ∃ u, r.notified = some u ∧ u < now - d) := by
  unfold GetAvailableNotification at hv
  cases hfind : db.find? (availAt (now - d)) with
  | none => rw [hfind] at hv; exact absurd hv (by simp)
  | some r =>
    rw [hfind] at hv
    refine ⟨r, List.mem_of_find?_eq_some hfind, ?_, ?_⟩
    · exact (Except.ok.injEq _ _).mp hv |>.symm
    · exact (availAt_iff _ r).mp (List.find?_some hfind)

/-- The availability query signals `NotFound` exactly when no row qualifies. -/
theorem getAvailable_notFound_iff (db : List NotificationRow) (now d : Int) :
    GetAvailableNotification db now d = Except.error DBError.notFound ↔
      ∀ r ∈ db, ¬(r.deleted = none ∧
        (r.notified = none ∨ ∃ u, r.notified = some u ∧ u < now - d)) := by
  unfold GetAvailableNotification
  constructor
  · intro h r hr
    cases hfind : db.find? (availAt (now - d)) with
    | none =>
      have := List.find?_eq_none.mp hfind r hr
      rw [availAt_iff] at this
      exact this
    | some x => rw [hfind] at h; exact absurd h (by simp)
  · intro h
    have hfind : db.find? (availAt (now - d)) = none :=
      List.find?_eq_none.mpr (fun r hr => by rw [availAt_iff]; exact h r hr)
    rw [hfind]

/-- Membership in a marked store comes from a source row. -/
theorem mem_markNotified (db : List NotificationRow) (nm : String) (t : Int)
    (x : NotificationRow) (h : x ∈ markNotified db nm t) :
    ∃ r ∈ db,
      x = if r.name = nm then { r with notified := some t } else r := by
  rcases List.mem_map.mp h with ⟨r, hr, heq⟩
  exact ⟨r, hr, heq.symm⟩

/-- While the lease has not expired (`now - t ≤ d`), a store in which `nm`
was marked notified at `t` never yields `nm` from the availability query. -/
theorem marked_name_not_returned (db : List NotificationRow) (nm : String)
    (t now d : Int) (hle : now - t ≤ d) (v : VulnerabilityNotification)
    (hv : GetAvailableNotification (markNotified db nm t) now d = Except.ok v) :
    v.name ≠ nm := by
  intro hname
  rcases getAvailable_ok_sound _ _ _ _ hv with ⟨x, hx, hscan, hdel, hnot⟩
  rcases mem_markNotified db nm t x hx with ⟨r, _, hxr⟩
  have hxname : x.name = nm := by
    rw [hscan, scanNotification_name] at hname; exact hname
  by_cases hr : r.name = nm
  · rw [if_pos hr] at hxr
    subst hxr
    rcases hnot with hnone | ⟨u, hu, hlt⟩
    · exact absurd hnone (by simp)
    · have htu : t = u := Option.some.inj hu
      omega
  · rw [if_neg hr] at hxr
    subst hxr
    exact hr hxname

/-! ## Claims -/

/-- C5: the `Null` no-op implementation of the notifications `Service`
returns `BackendException` for every read and write operation
(`GetAvailableNotification`, `GetNotification`, `SetNotificationNotified`,
`DeleteNotification`), except `CreateNotification`, which succeeds and
discards its input allowing any arguments, and `Ping`/`Close`, which are
trivially successful. -/
theorem C5_null_service (d : Int) (nm : String)
    (oldV newV oldV2 newV2 : Model) :
    Null.GetAvailableNotification d = Except.error DBError.backendException ∧
    Null.GetNotification nm = Except.error DBError.backendException ∧
    Null.SetNotificationNotified nm = Except.error DBError.backendException ∧
    Null.DeleteNotification nm = Except.error DBError.backendException ∧
    Null.CreateNotification oldV newV = Except.ok () ∧
    Null.CreateNotification oldV newV = Null.CreateNotification oldV2 newV2 ∧
    Null.Ping = true ∧
    Null.Close = () :=
  ⟨rfl, rfl, rfl, rfl, rfl, rfl, rfl, rfl⟩

/-- C6: for every pair of vulnerability references, `CreateNotification`
appends exactly one new row whose name is the freshly generated UUID (the
oracle input, independent of the arguments), with `Created = now` and
`Notified`/`Deleted` absent; the existing rows are untouched and no property
of the references is validated (any `Model` values are accepted); a
persistence failure surfaces as `BackendException`. -/
theorem C6_create_notification (db : List NotificationRow) (u : String)
    (now : Int) (oldV newV : Model) (nid : Nat) :
    CreateNotification db u now oldV newV nid false =
      Except.error DBError.backendException ∧
    ∃ r, CreateNotification db u now oldV newV nid true =
        Except.ok (db ++ [r]) ∧
      r.name = u ∧ r.created = now ∧ r.notified = none ∧ r.deleted = none :=
  ⟨rfl, newNotificationRow u now oldV newV nid, rfl, rfl, rfl, rfl, rfl⟩

/-- C10: `CreateNotification` encodes absence of a vulnerability reference by
the sentinel id 0: the stored old (resp. new) reference is NULL iff the
passed `Model` id equals 0; a call with both ids 0 is accepted and yields a
row with both references absent, and a surrogate key of 0 can never be
stored as present. -/
theorem C10_zero_sentinel (db : List NotificationRow) (u : String)
    (now : Int) (oldV newV : Model) (nid : Nat) :
    (∃ r, CreateNotification db u now oldV newV nid true =
        Except.ok (db ++ [r]) ∧
      (r.oldVulnerabilityId = none ↔ oldV.id = 0) ∧
      (r.newVulnerabilityId = none ↔ newV.id = 0)) ∧
    CreateNotification db u now ⟨0⟩ ⟨0⟩ nid true =
      Except.ok (db ++
        [{ id := nid, name := u, created := now, notified := none,
           deleted := none, oldVulnerabilityId := none,
           newVulnerabilityId := none }]) := by
  constructor
  · refine ⟨newNotificationRow u now oldV newV nid, rfl, ?_, ?_⟩
    · by_cases h : oldV.id = 0 <;> simp [newNotificationRow, h]
    · by_cases h : newV.id = 0 <;> simp [newNotificationRow, h]
  · simp [CreateNotification, newNotificationRow]

/-- C2 counterexample: the claim says `SetNotificationNotified` fails with
`NotFound` when no row matches the name; on the empty store the code executes
the update, never inspects the affected-row count, and returns success. -/
theorem C2_counterexample :
    SetNotificationNotified ([] : List NotificationRow) "x" 7 =
        Except.ok [] ∧
      SetNotificationNotified ([] : List NotificationRow) "x" 7 ≠
        Except.error DBError.notFound :=
  ⟨rfl, by simp [SetNotificationNotified, markNotified]⟩

/-- C2 (amended): `SetNotificationNotified(name)` sets `Notified = now` on
every row whose `Name` equals `name` (other rows and other fields untouched)
and returns success even when no row matches: the affected-row count after
the update is never checked, so a missing name does not yield `NotFound`. -/
theorem C2_set_notification_notified (db : List NotificationRow)
    (nm : String) (now : Int) :
    ∃ db', SetNotificationNotified db nm now = Except.ok db' ∧
      (∀ i : Nat, db'[i]? = db[i]?.map
        (fun r => if r.name = nm then { r with notified := some now }
                  else r)) ∧
      (∀ x ∈ db', x.name ≠ nm → x ∈ db) ∧
      SetNotificationNotified db nm now ≠ Except.error DBError.notFound := by
  refine ⟨markNotified db nm now, rfl, ?_, ?_, by simp [SetNotificationNotified]⟩
  · intro i
    simp [markNotified, List.getElem?_map]
  · intro x hx hname
    rcases mem_markNotified db nm now x hx with ⟨r, hr, hxr⟩
    by_cases h : r.name = nm
    · rw [if_pos h] at hxr
      exact absurd (by rw [hxr]; exact h) hname
    · rw [if_neg h] at hxr
      exact hxr ▸ hr

/-- C2 witness: on the empty store the update succeeds, changes nothing, and
does not signal `NotFound`. -/
theorem C2_witness :
    ∃ db', SetNotificationNotified ([] : List NotificationRow) "x" 7 =
        Except.ok db' ∧
      (∀ i : Nat, db'[i]? = ([] : List NotificationRow)[i]?.map
        (fun r => if r.name = "x" then { r with notified := some 7 }
                  else r)) ∧
      (∀ x ∈ db', x.name ≠ "x" → x ∈ ([] : List NotificationRow)) ∧
      SetNotificationNotified ([] : List NotificationRow) "x" 7 ≠
        Except.error DBError.notFound :=
  C2_set_notification_notified [] "x" 7

/-- C9 counterexample: the claim says a duplicate backend registration yields
a recoverable error rather than a panic; registering the name `pgsql` twice
makes `Register` panic. -/
theorem C9_counterexample :
    Registry.Register [("pgsql", 1)] "pgsql" (some 2) =
      Registry.RegisterOutcome.panicked
        "notifications: could not register duplicate Driver: pgsql" := by
  rfl

/-- C9 (amended): requesting an unknown backend name makes `Open` fail with
a recoverable configuration error (and a registered name is returned
normally), but registering a duplicate backend name — or a nil driver —
makes `Register` panic rather than return a recoverable error. -/
theorem C9_registry (drivers : List (String × Nat)) (nm : String)
    (d dr : Nat) :
    (drivers.lookup nm = none →
      ∃ msg, Registry.Open drivers nm = Except.error msg) ∧
    (drivers.lookup nm = some dr →
      Registry.Open drivers nm = Except.ok dr) ∧
    ((drivers.lookup nm).isSome →
      ∃ msg, Registry.Register drivers nm (some d) =
        Registry.RegisterOutcome.panicked msg) ∧
    (Registry.Register drivers nm none =
      Registry.RegisterOutcome.panicked
        "notifications: could not register nil Driver") ∧
    (drivers.lookup nm = none →
      Registry.Register drivers nm (some d) =
        Registry.RegisterOutcome.ok (drivers ++ [(nm, d)])) := by
  refine ⟨?_, ?_, ?_, rfl, ?_⟩
  · intro h
    refine ⟨"notifications: unknown Driver \"" ++ nm ++
      "\" (forgotten configuration or import?)", ?_⟩
    simp [Registry.Open, h]
  · intro h
    simp [Registry.Open, h]
  · intro h
    refine ⟨"notifications: could not register duplicate Driver: " ++ nm, ?_⟩
    simp [Registry.Register, h]
  · intro h
    simp [Registry.Register, h]

/-- C9 witness: on the empty registry `Open` of `pgsql` errors, and a second
registration of the name `a` panics. -/
theorem C9_witness :
    (∃ msg, Registry.Open ([] : List (String × Nat)) "pgsql" =
      Except.error msg) ∧
    (∃ msg, Registry.Register [("a", 1)] "a" (some 2) =
      Registry.RegisterOutcome.panicked msg) :=
  ⟨(C9_registry [] "pgsql" 2 1).1 rfl,
   (C9_registry [("a", 1)] "a" 2 1).2.2.1 rfl⟩

/-- C1 counterexample: the claim says the marked notification is returned
again once the elapsed time is at least `d`; with the row marked at time 0,
`now = 5` and `d = 5` the elapsed time equals `d` and the row is live, yet
the availability predicate (`Notified < now - d`, strict) rejects it and the
query signals `NotFound`. -/
theorem C1_counterexample :
    ((5 : Int) - 0 ≥ 5) ∧
    GetAvailableNotification
      [{ id := 1, name := "n", created := 0, notified := some 0,
         deleted := none, oldVulnerabilityId := none,
         newVulnerabilityId := none }] 5 5 =
      Except.error DBError.notFound := by
  exact ⟨by decide, by rfl⟩

/-- C1 (amended): a notification qualifies for
`GetAvailableNotification(renotifyInterval)` exactly when `Deleted` is absent
and `Notified` is absent or strictly older than `now - renotifyInterval`;
consequently, after `SetNotificationNotified(name)` succeeds at time `t`,
`GetAvailableNotification(d)` does not return that name while `now - t ≤ d`,
and returns it again once `now - t` strictly exceeds `d` (provided it was not
deleted and, the query yielding a single row, no other qualifying row is
selected first — here stated for the store holding that row alone); when no
row qualifies, it fails with `NotFound` as the normal empty-queue signal. -/
theorem C1_renotify_window (db : List NotificationRow) (nm : String)
    (t now d : Int) :
    (∀ v, GetAvailableNotification db now d = Except.ok v →
      ∃ r ∈ db, v = scanNotification r false ∧ r.deleted = none ∧
        (r.notified = none ∨ ∃ u, r.notified = some u ∧ u < now - d)) ∧
    (GetAvailableNotification db now d = Except.error DBError.notFound ↔
      ∀ r ∈ db, ¬(r.deleted = none ∧
        (r.notified = none ∨ ∃ u, r.notified = some u ∧ u < now - d))) ∧
    (∀ db', SetNotificationNotified db nm t = Except.ok db' →
      now - t ≤ d →
      ∀ v, GetAvailableNotification db' now d = Except.ok v →
        v.name ≠ nm) ∧
    (∀ r : NotificationRow, r.name = nm → r.deleted = none →
      now - t > d →
      ∀ db', SetNotificationNotified [r] nm t = Except.ok db' →
      ∃ v, GetAvailableNotification db' now d = Except.ok v ∧
        v.name = nm) := by
  refine ⟨getAvailable_ok_sound db now d, getAvailable_notFound_iff db now d,
    ?_, ?_⟩
  · intro db' hdb' hle v hv
    have hdb : db' = markNotified db nm t := by
      exact (Except.ok.inj hdb').symm
    rw [hdb] at hv
    exact marked_name_not_returned db nm t now d hle v hv
  · intro r hnm hdel hgt db' hdb'
    have hdb : db' = markNotified [r] nm t := (Except.ok.inj hdb').symm
    have hmarked : markNotified [r] nm t = [{ r with notified := some t }] := by
      simp [markNotified, hnm]
    have hp : availAt (now - d) { r with notified := some t } = true := by
      rw [availAt_iff]
      exact ⟨hdel, Or.inr ⟨t, rfl, by omega⟩⟩
    refine ⟨scanNotification { r with notified := some t } false, ?_, ?_⟩
    · rw [hdb, hmarked]
      unfold GetAvailableNotification
      rw [List.find?_cons_of_pos _ hp]
    · rw [scanNotification_name]
      exact hnm

/-- C1 witness: with the single notification `n` marked notified at time 0,
`now = 5` and `d = 3` (lease expired), the availability query returns `n`. -/
theorem C1_witness :
    ∃ v, GetAvailableNotification
        (markNotified
          [{ id := 1, name := "n", created := 0, notified := some 9,
             deleted := none, oldVulnerabilityId := none,
             newVulnerabilityId := none }] "n" 0) 5 3 =
      Except.ok v ∧ v.name = "n" :=
  (C1_renotify_window
      [{ id := 1, name := "n", created := 0, notified := some 9,
         deleted := none, oldVulnerabilityId := none,
         newVulnerabilityId := none }] "n" 0 5 3).2.2.2
    { id := 1, name := "n", created := 0, notified := some 9,
      deleted := none, oldVulnerabilityId := none,
      newVulnerabilityId := none }
    rfl rfl (by decide) _ rfl

/-- C3: `DeleteNotification(name)` sets `Deleted = now` on every live row
with that name and succeeds when at least one such row exists; it fails with
`NotFound` when no row matched (nonexistent name) or every matching row is
already deleted — in particular a second delete of the same name fails with
`NotFound`. -/
theorem C3_delete_notification (db : List NotificationRow) (nm : String)
    (now now2 : Int) :
    ((∃ r ∈ db, r.name = nm ∧ r.deleted = none) →
      ∃ db', DeleteNotification db nm now = Except.ok db' ∧
        (∀ i : Nat, db'[i]? = db[i]?.map
          (fun r => if deletableBy nm r then { r with deleted := some now }
                    else r)) ∧
        DeleteNotification db' nm now2 = Except.error DBError.notFound) ∧
    ((∀ r ∈ db, ¬(r.name = nm ∧ r.deleted = none)) →
      DeleteNotification db nm now = Except.error DBError.notFound) := by
  constructor
  · rintro ⟨r, hr, hname, hdel⟩
    have hmem : r ∈ db.filter (deletableBy nm) :=
      List.mem_filter.mpr ⟨hr, (deletableBy_iff nm r).mpr ⟨hname, hdel⟩⟩
    have hlen : (db.filter (deletableBy nm)).length ≠ 0 := by
      intro h0
      rw [List.length_eq_zero] at h0
      rw [h0] at hmem
      exact absurd hmem (List.not_mem_nil r)
    refine ⟨markDeleted db nm now, ?_, ?_, ?_⟩
    · unfold DeleteNotification
      rw [if_neg hlen]
    · intro i
      simp [markDeleted, List.getElem?_map]
    · have hnone : (markDeleted db nm now).filter (deletableBy nm) = [] := by
        rw [List.filter_eq_nil_iff]
        intro x hx
        rcases List.mem_map.mp hx with ⟨s, hs, hsx⟩
        by_cases h : deletableBy nm s = true
        · rw [if_pos h] at hsx
          rw [← hsx]
          simp [deletableBy]
        · rw [if_neg h] at hsx
          rw [← hsx]
          exact fun hc => h hc
      unfold DeleteNotification
      rw [hnone]
      rfl
  · intro h
    have hnil : db.filter (deletableBy nm) = [] := by
      rw [List.filter_eq_nil_iff]
      intro x hx hdx
      exact h x hx ((deletableBy_iff nm x).mp hdx)
    unfold DeleteNotification
    rw [hnil]
    rfl

/-- C3 witness: deleting the live notification `n` succeeds and transforms
the store as described, and a second delete of `n` fails with `NotFound`. -/
theorem C3_witness :
    ∃ db', DeleteNotification
        [{ id := 1, name := "n", created := 0, notified := none,
           deleted := none, oldVulnerabilityId := none,
           newVulnerabilityId := none }] "n" 5 = Except.ok db' ∧
      (∀ i : Nat, db'[i]? =
        ([{ id := 1, name := "n", created := 0, notified := none,
            deleted := none, oldVulnerabilityId := none,
            newVulnerabilityId := none }] :
          List NotificationRow)[i]?.map
          (fun r => if deletableBy "n" r then { r with deleted := some 5 }
                    else r)) ∧
      DeleteNotification db' "n" 9 = Except.error DBError.notFound :=
  (C3_delete_notification
    [{ id := 1, name := "n", created := 0, notified := none,
       deleted := none, oldVulnerabilityId := none,
       newVulnerabilityId := none }] "n" 5 9).1
    ⟨{ id := 1, name := "n", created := 0, notified := none,
       deleted := none, oldVulnerabilityId := none,
       newVulnerabilityId := none },
      List.mem_singleton.mpr rfl, rfl, rfl⟩

/-- C4 counterexample: the claim says two concurrent invocations of
`GetAvailableNotification` never both return the same name while the lease
has not expired; the operation performs no write (its body is a single
SELECT), so with one live notification `n` both invocations of an
interleaved pair — the second running on exactly the state the first left
behind, with no mark and no elapsed lease in between — return `n`. -/
theorem C4_counterexample :
    (GetAvailableNotificationOp
      [{ id := 1, name := "n", created := 0, notified := none,
         deleted := none, oldVulnerabilityId := none,
         newVulnerabilityId := none }] 10 3).2 =
      [{ id := 1, name := "n", created := 0, notified := none,
         deleted := none, oldVulnerabilityId := none,
         newVulnerabilityId := none }] ∧
    ∃ v, (GetAvailableNotificationOp
        [{ id := 1, name := "n", created := 0, notified := none,
           deleted := none, oldVulnerabilityId := none,
           newVulnerabilityId := none }] 10 3).1 = Except.ok v ∧
      (GetAvailableNotificationOp
        (GetAvailableNotificationOp
          [{ id := 1, name := "n", created := 0, notified := none,
             deleted := none, oldVulnerabilityId := none,
             newVulnerabilityId := none }] 10 3).2 10 3).1 =
        Except.ok v ∧
      v.name = "n" := by
  exact ⟨rfl,
    scanNotification
      { id := 1, name := "n", created := 0, notified := none,
        deleted := none, oldVulnerabilityId := none,
        newVulnerabilityId := none } false,
    rfl, rfl, rfl⟩

/-- C4 (amended): `GetAvailableNotification` records no claim — it leaves
the store untouched, so a second invocation on the state the first left
behind returns the very same answer; the exclusion the store actually
provides starts only at the holder's explicit mark: after
`SetNotificationNotified(name)` at time `t`, no invocation returns that
name while `now - t ≤ d`. -/
theorem C4_claim_exclusion (db : List NotificationRow) (nm : String)
    (t now d : Int) :
    ((GetAvailableNotificationOp db now d).2 = db ∧
      (GetAvailableNotificationOp
        (GetAvailableNotificationOp db now d).2 now d).1 =
        (GetAvailableNotificationOp db now d).1) ∧
    (now - t ≤ d →
      ∀ db', SetNotificationNotified db nm t = Except.ok db' →
      ∀ v, GetAvailableNotification db' now d = Except.ok v →
        v.name ≠ nm) := by
  refine ⟨⟨rfl, rfl⟩, ?_⟩
  intro hle db' hdb' v hv
  have hdb : db' = markNotified db nm t := (Except.ok.inj hdb').symm
  rw [hdb] at hv
  exact marked_name_not_returned db nm t now d hle v hv

/-- C4 witness: with notification `q` marked at time 0 and `now = 1`,
`d = 4` (lease still running), the availability query yields `m`, whose
name differs from `q`. -/
theorem C4_witness :
    (scanNotification
      { id := 1, name := "m", created := 0, notified := none,
        deleted := none, oldVulnerabilityId := none,
        newVulnerabilityId := none } false).name ≠ "q" :=
  (C4_claim_exclusion
    [{ id := 1, name := "m", created := 0, notified := none,
       deleted := none, oldVulnerabilityId := none,
       newVulnerabilityId := none },
     { id := 2, name := "q", created := 0, notified := none,
       deleted := none, oldVulnerabilityId := none,
       newVulnerabilityId := none }] "q" 0 1 4).2
    (by decide) _ rfl
    (scanNotification
      { id := 1, name := "m", created := 0, notified := none,
        deleted := none, oldVulnerabilityId := none,
        newVulnerabilityId := none } false) (by rfl)

/-- C7: `GetNotification(name)` fails with `NotFound` exactly when no row
has that name; a row with the name — regardless of its deleted or notified
state — yields a result with that name; and the result carries only a
stored row's scalar fields plus the two vulnerability surrogate references
as bare `Model` ids. -/
theorem C7_get_notification (db : List NotificationRow) (nm : String) :
    (GetNotification db nm = Except.error DBError.notFound ↔
      ∀ r ∈ db, r.name ≠ nm) ∧
    ((∃ r ∈ db, r.name = nm) →
      ∃ v, GetNotification db nm = Except.ok v ∧ v.name = nm) ∧
    (∀ v, GetNotification db nm = Except.ok v →
      ∃ r ∈ db, r.name = nm ∧
        v.id = r.id ∧ v.name = r.name ∧ v.created = r.created ∧
        v.notified = r.notified ∧ v.deleted = r.deleted ∧
        v.oldVulnerability = r.oldVulnerabilityId.map Model.mk ∧
        v.newVulnerability = r.newVulnerabilityId.map Model.mk) := by
  refine ⟨?_, ?_, ?_⟩
  · unfold GetNotification
    constructor
    · intro h r hr
      cases hfind : db.find? (fun r => r.name = nm) with
      | none =>
        have := List.find?_eq_none.mp hfind r hr
        simpa using this
      | some x =>
        rw [hfind] at h
        exact absurd h (by simp)
    · intro h
      have hfind : db.find? (fun r => r.name = nm) = none :=
        List.find?_eq_none.mpr (fun r hr => by simpa using h r hr)
      rw [hfind]
  · rintro ⟨r, hr, hname⟩
    have hsome : (db.find? (fun r => r.name = nm)).isSome :=
      List.find?_isSome.mpr ⟨r, hr, by simpa using hname⟩
    rcases Option.isSome_iff_exists.mp hsome with ⟨x, hx⟩
    refine ⟨scanNotification x true, ?_, ?_⟩
    · unfold GetNotification
      rw [hx]
    · rw [scanNotification_name]
      simpa using List.find?_some hx
  · intro v hv
    unfold GetNotification at hv
    cases hfind : db.find? (fun r => r.name = nm) with
    | none =>
      rw [hfind] at hv
      exact absurd hv (by simp)
    | some x =>
      rw [hfind] at hv
      have hxv : v = scanNotification x true := (Except.ok.inj hv).symm
      have hname : x.name = nm := by simpa using List.find?_some hfind
      subst hxv
      exact ⟨x, List.mem_of_find?_eq_some hfind, hname,
        rfl, rfl, rfl, rfl, rfl, rfl, rfl⟩

/-- C7 witness: the notification `z`, although deleted and notified, is
still returned by `GetNotification` under its exact name. -/
theorem C7_witness :
    ∃ v, GetNotification
        [{ id := 3, name := "z", created := 1, notified := some 2,
           deleted := some 4, oldVulnerabilityId := some 7,
           newVulnerabilityId := none }] "z" = Except.ok v ∧
      v.name = "z" :=
  (C7_get_notification
    [{ id := 3, name := "z", created := 1, notified := some 2,
       deleted := some 4, oldVulnerabilityId := some 7,
       newVulnerabilityId := none }] "z").2.1
    ⟨{ id := 3, name := "z", created := 1, notified := some 2,
       deleted := some 4, oldVulnerabilityId := some 7,
       newVulnerabilityId := none },
      List.mem_singleton.mpr rfl, rfl⟩

/-- C8: `GetAvailableNotification` is read-only — it performs no write, in
particular it does not set `Notified` (marking is the caller's explicit
follow-up via `SetNotificationNotified`) and leaves every row unchanged —
and the notification it returns carries only a stored row's scalar fields,
with `OldVulnerability` and `NewVulnerability` left unpopulated. -/
theorem C8_available_read_only (db : List NotificationRow) (now d : Int) :
    (GetAvailableNotificationOp db now d).2 = db ∧
    (∀ v, GetAvailableNotification db now d = Except.ok v →
      v.oldVulnerability = none ∧ v.newVulnerability = none ∧
      ∃ r ∈ db, v.id = r.id ∧ v.name = r.name ∧ v.created = r.created ∧
        v.notified = r.notified ∧ v.deleted = r.deleted) := by
  refine ⟨rfl, ?_⟩
  intro v hv
  rcases getAvailable_ok_sound db now d v hv with ⟨r, hr, hscan, _, _⟩
  subst hscan
  exact ⟨rfl, rfl, r, hr, rfl, rfl, rfl, rfl, rfl⟩

/-- C8 witness: the available notification `w`, whose stored row carries
both vulnerability references, is returned with both reference fields
unpopulated and its scalar fields equal to the row's. -/
theorem C8_witness :
    (scanNotification sampleRowW false).oldVulnerability = none ∧
    (scanNotification sampleRowW false).newVulnerability = none ∧
    ∃ r ∈ [sampleRowW],
      (scanNotification sampleRowW false).id = r.id ∧
      (scanNotification sampleRowW false).name = r.name ∧
      (scanNotification sampleRowW false).created = r.created ∧
      (scanNotification sampleRowW false).notified = r.notified ∧
      (scanNotification sampleRowW false).deleted = r.deleted :=
  (C8_available_read_only [sampleRowW] 9 2).2
    (scanNotification sampleRowW false) (by rfl)

end Clair
